import Mathlib

/-!
Verification development for the Gantt viewport controller
(`src/core/gantt/Controller.js`): a shallow embedding of the controller's
data model and operations, followed by theorems about its height cache,
position resolution, anchor setters, scrolling and period indexing.

JS numbers are modelled as `ℤ` (the claims only quantify over integral
heights, offsets and indices, and every operation involved — sum,
difference, min, max, comparison — stays integral); the NaN "unset"
sentinel of the start/end indices is modelled as `Option ℤ` with
`none` = NaN.  Values that JS arithmetic can turn into NaN (undefined
array reads propagated through `-`/`+`) are modelled as `Option ℤ` with
`none` = NaN as well.
-/

/-- Modelled from the spec: `anychart.core.ui.DataGrid.DEFAULT_ROW_HEIGHT`
is not under src/; the spec calls it "a fixed default" row height.  The
exact positive value is irrelevant to every claim below. -/
def DEFAULT_ROW_HEIGHT : ℤ := 20

/-- Modelled from the spec: `anychart.core.ui.DataGrid.ROW_SPACE` is not
under src/; the spec calls it "fixed inter-row spacing".  The exact
positive value is irrelevant to every claim below. -/
def ROW_SPACE : ℤ := 1

/-- JS array read `l[i]` for a numeric index: defined only when `i` is a
non-negative integer below the length, `undefined` (here `none`) otherwise
(negative or past-the-end indices). -/
def jsGet (l : List ℤ) (i : ℤ) : Option ℤ :=
  if 0 ≤ i then l[i.toNat]? else none

/-- JS addition where `none` stands for NaN/undefined: NaN propagates. -/
def jsAdd (a b : Option ℤ) : Option ℤ :=
  match a, b with
  | some x, some y => some (x + y)
  | _, _ => none

/-- JS subtraction where `none` stands for NaN/undefined: NaN propagates. -/
def jsSub (a b : Option ℤ) : Option ℤ :=
  match a, b with
  | some x, some y => some (x - y)
  | _, _ => none

/-- JS `<` where `none` stands for NaN: any comparison with NaN is false. -/
def jsLt (a b : Option ℤ) : Bool :=
  match a, b with
  | some x, some y => decide (x < y)
  | _, _ => false

/-- JS `>` where `none` stands for NaN: any comparison with NaN is false. -/
def jsGt (a b : Option ℤ) : Bool :=
  match a, b with
  | some x, some y => decide (y < x)
  | _, _ => false

/-- JS `>=` where `none` stands for NaN: any comparison with NaN is false. -/
def jsGe (a b : Option ℤ) : Bool :=
  match a, b with
  | some x, some y => decide (y ≤ x)
  | _, _ => false

/-- Embeds `Controller.getItemHeight` (Controller.js lines 162-164):
`anychart.utils.toNumber(item.get(ROW_HEIGHT)) || DEFAULT_ROW_HEIGHT`.
The external `toNumber` yields NaN on a missing or non-numeric override,
modelled as `none`; JS `||` falls back to the default on NaN and on `0`. -/
def getItemHeight (rowHeightField : Option ℤ) : ℤ :=
  match rowHeightField with
  | none => DEFAULT_ROW_HEIGHT
  | some v => if v = 0 then DEFAULT_ROW_HEIGHT else v

/-- Accumulation loop of `getVisibleData_` (Controller.js lines 304-311):
`height += getItemHeight(item) + ROW_SPACE; heightCache_.push(height)`,
run over the traverser's visit order.  A visited item is represented by
its row-height override field (`Option ℤ`). -/
def heightCacheAux (height : ℤ) (rows : List (Option ℤ)) : List ℤ :=
  match rows with
  | [] => []
  | r :: rs =>
    let h := height + (getItemHeight r + ROW_SPACE)
    h :: heightCacheAux h rs

/-- Embeds `getVisibleData_` (Controller.js lines 299-314).  The
collapse-aware traverser is external (`anychart.data.Traverser`); its
output order is taken as the input list `rows`.  The function pushes every
visited item onto `visibleData_` and the running height sum onto
`heightCache_`. -/
def getVisibleData_ (rows : List (Option ℤ)) : List (Option ℤ) × List ℤ :=
  (rows, heightCacheAux 0 rows)

/-- Embeds `getHeightByIndexes_` (Controller.js lines 325-342).
Both indices are JS numbers; `b = none` models an absent `opt_endIndex`
argument (which defaults to `cacheEnd`), not NaN.
The source's arithmetic three-assignment swap is an exact swap of the two
numbers; `heightCache_[startIndex - 1] || 0` equals `getD 0` because a
present cache value of `0` also maps to `0` under JS `||`; the final
`heightCache_[opt_endIndex] - startHeight` is NaN when the read is
undefined, hence the `Option.map`. -/
def getHeightByIndexes_ (cache : List ℤ) (startIndex : ℤ) (optEndIndex : Option ℤ) : Option ℤ :=
  if cache.length = 0 then some 0
  else
    let cacheEnd : ℤ := (cache.length : ℤ) - 1
    let s0 := min startIndex cacheEnd
    let e0 := match optEndIndex with
              | some e => min e cacheEnd
              | none => cacheEnd
    let s := if e0 < s0 then e0 else s0
    let e := if e0 < s0 then s0 else e0
    let startHeight : ℤ := (jsGet cache (s - 1)).getD 0
    (jsGet cache e).map (fun x => x - startHeight)

/-- Embeds `goog.array.defaultCompare(target, x)`:
`target > x ? 1 : target < x ? -1 : 0`.  A NaN target (`none`) compares
`0` against everything. -/
def defaultCompare (target : Option ℤ) (x : ℤ) : ℤ :=
  match target with
  | none => 0
  | some t => if x < t then 1 else if t < x then -1 else 0

/-- Embeds the loop of `goog.array.binarySearch_` (the external goog
library): `left`/`right` bisection with `middle = (left + right) >> 1`,
moving `left` past `middle` on a positive comparison and lowering `right`
to `middle` otherwise, returning `left` on exit.  The loop shrinks
`right - left` by at least one per iteration, so fuel `right - left`
(at most the array length at the call sites below) makes the fuelled
recursion exit exactly when the JS loop does. -/
def binarySearchLoop (arr : List ℤ) (target : Option ℤ) : ℕ → ℕ → ℕ → ℕ
  | 0, left, _right => left
  | fuel + 1, left, right =>
    if left < right then
      let middle := (left + right) / 2
      if 0 < defaultCompare target (arr.getD middle 0) then
        binarySearchLoop arr target fuel (middle + 1) right
      else
        binarySearchLoop arr target fuel left middle
    else left

/-- Embeds `getIndexByHeight_` (Controller.js lines 352-355).
`goog.array.binarySearch` returns the leftmost position `left` of the loop
either directly (found) or as `~left` (not found); the wrapper's
`index >= 0 ? index : ~index` therefore collapses to `left` in both cases. -/
def getIndexByHeight_ (cache : List ℤ) (height : Option ℤ) : ℕ :=
  binarySearchLoop cache height cache.length 0 cache.length

/-- Controller state (Controller.js constructor, lines 20-153), restricted
to the fields the viewport algorithms read and write.  `startIndex_` and
`endIndex_` carry the NaN "unset" sentinel as `none`.  The three
consistency bits DATA / VISIBILITY / POSITION are modelled as dirty
flags (`invalidate` sets one, `markConsistent` clears one).  Collaborator
references (tree, data grid, timeline, scrollbar) are external and carry
no state the claims mention; an item of `visibleData_` is represented by
its row-height override field. -/
structure Controller where
  visibleData_ : List (Option ℤ)
  heightCache_ : List ℤ
  startIndex_ : Option ℤ
  endIndex_ : Option ℤ
  verticalOffset_ : ℤ
  availableHeight_ : ℤ
  dirtyData_ : Bool
  dirtyVisibility_ : Bool
  dirtyPosition_ : Bool
  positionRecalculated_ : Bool
deriving DecidableEq

/-- Embeds the setter arm of `Controller.prototype.startIndex`
(Controller.js lines 468-478): guarded by
`this.startIndex_ != opt_value && !isNaN(opt_value)`; on success stores the
value, resets `endIndex_` to NaN and invalidates POSITION.  A NaN argument
(`none`) fails `!isNaN` and is a no-op; JS `NaN != v` is true, so a stored
NaN never blocks a numeric argument. -/
def Controller.startIndex (c : Controller) (v : Option ℤ) : Controller :=
  match v with
  | none => c
  | some q =>
    if c.startIndex_ = some q then c
    else { c with startIndex_ := some q, endIndex_ := none, dirtyPosition_ := true }

/-- Embeds the setter arm of `Controller.prototype.endIndex`
(Controller.js lines 487-497), symmetric to the start-index setter. -/
def Controller.endIndex (c : Controller) (v : Option ℤ) : Controller :=
  match v with
  | none => c
  | some q =>
    if c.endIndex_ = some q then c
    else { c with endIndex_ := some q, startIndex_ := none, dirtyPosition_ := true }

/-- Embeds the setter arm of `Controller.prototype.verticalOffset`
(Controller.js lines 450-459). -/
def Controller.verticalOffset (c : Controller) (v : ℤ) : Controller :=
  if c.verticalOffset_ = v then c
  else { c with verticalOffset_ := v, dirtyPosition_ := true }

/-- Embeds the setter arm of `Controller.prototype.availableHeight`
(Controller.js lines 505-514). -/
def Controller.availableHeight (c : Controller) (v : ℤ) : Controller :=
  if c.availableHeight_ = v then c
  else { c with availableHeight_ := v, dirtyPosition_ := true }

/-- Embeds the start-anchored overflow arm of `recalculate`
(Controller.js lines 375-384), entered with `startIndex_ = some si`.
If the height below the anchor (minus the offset) is less than the
available height, flip to the end of the list; otherwise derive
`endIndex_` from `indexForHeight(height + availableHeight + offset)`.
In the flip arm the range `(newStart, cacheEnd)` always has a defined
height (both indices land in `[0, cacheEnd]`), so the `getD 0` on the new
offset never actually substitutes. -/
def Controller.recalcFromStart (c : Controller) (si : ℤ) : Controller :=
  let th := jsSub (getHeightByIndexes_ c.heightCache_ si none) (some c.verticalOffset_)
  if jsLt th (some c.availableHeight_) then
    let ns : ℕ := getIndexByHeight_ c.heightCache_
      (jsSub (jsGet c.heightCache_ ((c.heightCache_.length : ℤ) - 1)) (some c.availableHeight_))
    let ne : ℤ := (c.heightCache_.length : ℤ) - 1
    { c with
      startIndex_ := some (ns : ℤ),
      endIndex_ := some ne,
      verticalOffset_ :=
        (getHeightByIndexes_ c.heightCache_ (ns : ℤ) (some ne)).getD 0 - c.availableHeight_ }
  else
    let height : Option ℤ := if si = 0 then some 0 else jsGet c.heightCache_ (si - 1)
    { c with
      endIndex_ := some ((getIndexByHeight_ c.heightCache_
        (jsAdd (jsAdd height (some c.availableHeight_)) (some c.verticalOffset_)) : ℕ) : ℤ) }

/-- Embeds the end-anchored overflow arm of `recalculate`
(Controller.js lines 385-400), entered with `endIndex_ = some ei`.
If the height above the anchor is less than the available height, flip to
the start of the list; otherwise derive `startIndex_` from
`indexForHeight(heightCache[endIndex] - availableHeight)` and recompute
the offset as the residual (this arm never honours a prior offset).
The residual is NaN in JS only when `ei` is a fractional or past-the-end
user value (an undefined cache read); the `getD 0` stands in for NaN in
that pathological corner, which no claim below touches. -/
def Controller.recalcFromEnd (c : Controller) (ei : ℤ) : Controller :=
  let th := getHeightByIndexes_ c.heightCache_ 0 (some ei)
  if jsLt th (some c.availableHeight_) then
    { c with
      startIndex_ := some 0,
      verticalOffset_ := 0,
      endIndex_ := some ((getIndexByHeight_ c.heightCache_ (some c.availableHeight_) : ℕ) : ℤ) }
  else
    let ns : ℕ := getIndexByHeight_ c.heightCache_
      (jsSub (jsGet c.heightCache_ ei) (some c.availableHeight_))
    { c with
      startIndex_ := some (ns : ℤ),
      verticalOffset_ :=
        (jsSub (getHeightByIndexes_ c.heightCache_ (ns : ℤ) (some ei)) (some c.availableHeight_)).getD 0 }

/-- Embeds `Controller.prototype.recalculate` (Controller.js lines 363-410):
empty visible set collapses to the all-zero state; if everything fits,
show everything; otherwise default an all-unset anchor pair to
`startIndex_ = 0` and resolve from whichever anchor is set.  The final
inner arm (both anchors unset after the defaulting) is unreachable.
Completion raises `positionRecalculated_` and marks POSITION consistent. -/
def Controller.recalculate (c : Controller) : Controller :=
  let c1 :=
    if c.visibleData_.length ≠ 0 then
      let totalHeight := getHeightByIndexes_ c.heightCache_ 0 (some ((c.heightCache_.length : ℤ) - 1))
      if jsGe (some c.availableHeight_) totalHeight then
        { c with
          startIndex_ := some 0,
          verticalOffset_ := 0,
          endIndex_ := some ((c.visibleData_.length : ℤ) - 1) }
      else
        let c2 := if c.startIndex_ = none ∧ c.endIndex_ = none
                  then { c with startIndex_ := some 0 } else c
        match c2.startIndex_ with
        | some si => c2.recalcFromStart si
        | none =>
          match c2.endIndex_ with
          | some ei => c2.recalcFromEnd ei
          | none => c2
    else
      { c with startIndex_ := some 0, endIndex_ := some 0, verticalOffset_ := 0 }
  { c1 with positionRecalculated_ := true, dirtyPosition_ := false }

/-- Embeds the POSITION leg of `Controller.prototype.run`
(Controller.js lines 556-571): when any consistency bit is dirty the
cascade ends in `this.recalculate()`.  The DATA and VISIBILITY legs
re-read the external tree and are identity whenever those bits are clean,
which holds in every state considered below; the subsequent pushes to the
data grid, timeline and scrollbar are external rendering with no effect
on the controller fields the claims mention, except that `run` finally
lowers `positionRecalculated_` (line 606). -/
def Controller.run (c : Controller) : Controller :=
  let c1 := if c.dirtyData_ || c.dirtyVisibility_ || c.dirtyPosition_ then c.recalculate else c
  { c1 with positionRecalculated_ := false }

/-- Embeds `Controller.prototype.scrollTo` (Controller.js lines 659-679).
After clamping the pixel offset to non-negative, a zero offset is a no-op;
an offset past `totalHeight - availableHeight` delegates to the end-index
setter with the past-the-end sentinel `heightCache_.length`; otherwise the
code computes `itemIndex = getIndexByHeight_(pxOffset)`,
`previousHeight = itemIndex ? heightCache_[itemIndex - 1] : 0` and sets
`verticalOffset = itemIndex - previousHeight` (sic, line 669: the index,
not the pixel offset, minus the previous height), then runs.  For
`itemIndex` in `[1, length]` the cache read is defined, so the `getD 0`
never actually substitutes. -/
def Controller.scrollTo (c : Controller) (pxOffset : ℤ) : Controller :=
  let px := max pxOffset 0
  let totalHeight := jsGet c.heightCache_ ((c.heightCache_.length : ℤ) - 1)
  if px ≠ 0 then
    let c2 :=
      if jsGt (some px) (jsSub totalHeight (some c.availableHeight_)) then
        c.endIndex (some (c.heightCache_.length : ℤ))
      else
        let itemIndex : ℕ := getIndexByHeight_ c.heightCache_ (some px)
        let previousHeight : ℤ :=
          if itemIndex = 0 then 0 else (jsGet c.heightCache_ ((itemIndex : ℤ) - 1)).getD 0
        let vo : ℤ := (itemIndex : ℤ) - previousHeight
        (c.verticalOffset vo).startIndex (some (itemIndex : ℤ))
    c2.run
  else c

/-- Resource-mode period record: an id plus a payload tag distinguishing
the period objects of different nodes.  The raw period object's other
fields (start and end dates) only feed the external date-range scan. -/
structure Period where
  id : String
  val : ℕ
deriving DecidableEq

/-- Embeds one iteration of the inner period loop of `linearizeData_`
(Controller.js line 259): `if (!periodsMap_[periodId]) periodsMap_[periodId] = period` —
insert only when the id is absent (period objects are always truthy).
The JS object map is modelled as an association list. -/
def periodsMapInsert (m : List (String × Period)) (p : Period) : List (String × Period) :=
  if (m.lookup p.id).isSome then m else m ++ [(p.id, p)]

/-- Embeds the resource-mode periods-map effect of `linearizeData_`
(Controller.js lines 251-265): for every node of the full pre-order
traversal, the shared map is first reset (`this.periodsMap_ = {}`, line
252, executed per node) and then filled from that node's period list with
insert-if-absent.  The traversal itself is external
(`anychart.data.Traverser`); its pre-order output is taken as the list of
per-node period lists `nodes`.  The depth/index metadata writes and the
date-range scan of the same loop touch no state the claims mention.
`prev` is the map left over from the previous linearization (the
constructor starts it empty); it survives only when `nodes` is empty. -/
def linearizeData_ (prev : List (String × Period)) (nodes : List (List Period)) :
    List (String × Period) :=
  nodes.foldl (fun _m periods => periods.foldl periodsMapInsert []) prev

/-- Embeds `getPeriodsMap` (Controller.js lines 417-419); looking a period
up by id in the returned map is an association-list lookup. -/
def getPeriodById (m : List (String × Period)) (id : String) : Option Period :=
  m.lookup id

/-- Total content height `getHeightByIndexes_(0, heightCache_.length - 1)`
as used by `recalculate` (Controller.js line 366).  On any cache this call
returns a defined number (the last cumulative entry, or 0 when empty), so
the `getD 0` is only packaging. -/
def totalContentHeight (cache : List ℤ) : ℤ :=
  (getHeightByIndexes_ cache 0 (some ((cache.length : ℤ) - 1))).getD 0

/-- Written from the spec's words for the refinement claim about index
clamping: "Indices are clamped to [0, length-1]". -/
def clampIndexSpec (cache : List ℤ) (i : ℤ) : ℤ :=
  min (max i 0) ((cache.length : ℤ) - 1)

/-- Example state of the spec's position-resolution walkthrough: five
visible rows of height 10 with spacing 0 give the height cache
[10, 20, 30, 40, 50]; availableHeight 25, anchored at startIndex 1 with
offset 0 (endIndex unset by the anchor setter). -/
def exampleState : Controller :=
  { visibleData_ := [none, none, none, none, none]
    heightCache_ := [10, 20, 30, 40, 50]
    startIndex_ := some 1
    endIndex_ := none
    verticalOffset_ := 0
    availableHeight_ := 25
    dirtyData_ := false
    dirtyVisibility_ := false
    dirtyPosition_ := true
    positionRecalculated_ := false }

/-- State with both anchors numeric, as every `recalculate` leaves them
(for the setter no-op counterexample): two rows, resolved viewport. -/
def bothAnchorsState : Controller :=
  { visibleData_ := [none, none]
    heightCache_ := [21, 42]
    startIndex_ := some 1
    endIndex_ := some 1
    verticalOffset_ := 0
    availableHeight_ := 10
    dirtyData_ := false
    dirtyVisibility_ := false
    dirtyPosition_ := false
    positionRecalculated_ := false }

/-- Concrete fits-regime state: one visible row of total height 21,
viewport of 100 pixels, stale anchor 7 and offset 5. -/
def fitsState : Controller :=
  { visibleData_ := [none]
    heightCache_ := [21]
    startIndex_ := some 7
    endIndex_ := none
    verticalOffset_ := 5
    availableHeight_ := 100
    dirtyData_ := false
    dirtyVisibility_ := false
    dirtyPosition_ := true
    positionRecalculated_ := false }

/-- Concrete empty-visible-set state with stale anchors and offset. -/
def emptyVisibleState : Controller :=
  { visibleData_ := []
    heightCache_ := []
    startIndex_ := some 4
    endIndex_ := none
    verticalOffset_ := 33
    availableHeight_ := 25
    dirtyData_ := false
    dirtyVisibility_ := false
    dirtyPosition_ := true
    positionRecalculated_ := false }

/-- State for the pixel-scroll bug: same geometry as the example state,
resting at the top. -/
def scrollState : Controller :=
  { visibleData_ := [none, none, none, none, none]
    heightCache_ := [10, 20, 30, 40, 50]
    startIndex_ := some 0
    endIndex_ := none
    verticalOffset_ := 0
    availableHeight_ := 25
    dirtyData_ := false
    dirtyVisibility_ := false
    dirtyPosition_ := false
    positionRecalculated_ := false }

/-- C1: in the start-anchored overflow regime with height cache
[10, 20, 30, 40, 50], availableHeight 25, startIndex anchored at 1 and
offset 0, `recalculate` keeps startIndex = 1 and offset = 0 and sets
endIndex = indexForHeight(10 + 25 + 0) = 3, so the viewport is rows 1..3
with offset 0. -/
theorem C1_position_resolution_example :
    (exampleState.recalculate).startIndex_ = some 1 ∧
    (exampleState.recalculate).verticalOffset_ = 0 ∧
    (exampleState.recalculate).endIndex_ = some 3 ∧
    getIndexByHeight_ exampleState.heightCache_ (some (10 + 25 + 0)) = 3 := by
  decide

/-- C2 counterexample: the id-to-period map does not reflect every node's
periods — the map is reset per node, so after linearizing a node with
periods P1, P2 followed by a node with period P1, the id "P2" is absent;
and within one node's period list the FIRST period with a duplicate id
wins, not the last. -/
theorem C2_counterexample :
    getPeriodById (linearizeData_ [] [[⟨"P1", 1⟩, ⟨"P2", 2⟩], [⟨"P1", 3⟩]]) "P2" = none ∧
    getPeriodById (linearizeData_ [] [[⟨"P1", 10⟩, ⟨"P1", 20⟩]]) "P1" = some ⟨"P1", 10⟩ := by
  decide

/-- C2 amended: after a resource-mode linearization the id-to-period map
holds exactly the periods of the LAST node in traversal order (the
per-node reset discards every earlier node's entries); within one node's
period list an earlier period with a duplicate id wins over a later one;
in particular, for two nodes each declaring a period with id "P1", the
lookup returns the period of the node visited later. -/
theorem C2_last_node_first_period_wins (prev : List (String × Period))
    (ns : List (List Period)) (n : List Period) :
    (linearizeData_ prev (ns ++ [n]) = n.foldl periodsMapInsert []) ∧
    (∀ (m : List (String × Period)) (p : Period),
      (getPeriodById m p.id).isSome = true → periodsMapInsert m p = m) ∧
    getPeriodById (linearizeData_ [] [[⟨"P1", 1⟩], [⟨"P1", 2⟩]]) "P1" = some ⟨"P1", 2⟩ := by
  refine ⟨?_, ?_, by decide⟩
  · simp [linearizeData_, List.foldl_append]
  · intro m p h
    simp only [getPeriodById] at h
    simp [periodsMapInsert, h]

/-- C2 witness: the amended theorem applied at a concrete input, with the
duplicate-id hypothesis discharged there. -/
theorem C2_last_node_first_period_wins_witness :
    (linearizeData_ [] ([[⟨"P1", 1⟩]] ++ [[⟨"P1", 2⟩]]) =
      List.foldl periodsMapInsert [] [Period.mk "P1" 2]) ∧
    periodsMapInsert [("P1", Period.mk "P1" 5)] (Period.mk "P1" 9) =
      [("P1", Period.mk "P1" 5)] :=
  ⟨(C2_last_node_first_period_wins [] [[⟨"P1", 1⟩]] [⟨"P1", 2⟩]).1,
   (C2_last_node_first_period_wins [] [] []).2.1 [("P1", Period.mk "P1" 5)]
     (Period.mk "P1" 9) (by decide)⟩

/-- C3 counterexample: with cache [10] and both indices -1, the range
query returns NaN (`none`), while the query at the clamped indices (0, 0)
returns 10 — so out-of-range inputs are not equivalent to their clamped
values when both indices are negative. -/
theorem C3_counterexample :
    getHeightByIndexes_ [10] (-1) (some (-1)) = none ∧
    getHeightByIndexes_ [10] (clampIndexSpec [10] (-1))
      (some (clampIndexSpec [10] (-1))) = some 10 := by
  decide

/-- C4 counterexample: in a state where both anchors are numeric (as every
`recalculate` leaves them), calling the startIndex setter with the current
value is a no-op — endIndex stays numeric instead of becoming unset and
POSITION is not marked dirty; symmetrically for the endIndex setter. -/
theorem C4_counterexample :
    (bothAnchorsState.startIndex (some 1)).endIndex_ = some 1 ∧
    (bothAnchorsState.startIndex (some 1)).dirtyPosition_ = false ∧
    (bothAnchorsState.endIndex (some 1)).startIndex_ = some 1 ∧
    (bothAnchorsState.endIndex (some 1)).dirtyPosition_ = false := by
  decide

/-- C4 amended: for every controller state and every non-NaN k that
DIFFERS from the value currently stored in the index being set, the
startIndex setter clears endIndex to unset and marks POSITION dirty, and
symmetrically for the endIndex setter (setting an index to its current
value is a no-op). -/
theorem C4_anchor_exclusivity (c : Controller) (k : ℤ) :
    (c.startIndex_ ≠ some k →
      (c.startIndex (some k)).endIndex_ = none ∧
      (c.startIndex (some k)).dirtyPosition_ = true) ∧
    (c.endIndex_ ≠ some k →
      (c.endIndex (some k)).startIndex_ = none ∧
      (c.endIndex (some k)).dirtyPosition_ = true) := by
  constructor <;> intro h <;> simp [Controller.startIndex, Controller.endIndex, h]

/-- C4 witness: the amended theorem applied to the example state with
k = 3 (distinct from both stored anchors). -/
theorem C4_anchor_exclusivity_witness :
    ((exampleState.startIndex (some 3)).endIndex_ = none ∧
      (exampleState.startIndex (some 3)).dirtyPosition_ = true) ∧
    ((exampleState.endIndex (some 3)).startIndex_ = none ∧
      (exampleState.endIndex (some 3)).dirtyPosition_ = true) :=
  ⟨(C4_anchor_exclusivity exampleState 3).1 (by decide),
   (C4_anchor_exclusivity exampleState 3).2 (by decide)⟩

/-- C7: whenever the visible row sequence is empty, `recalculate` yields
startIndex = 0, endIndex = 0 and verticalOffset = 0, independent of any
previously set anchor, offset or available height (a total function in
the model — no fault). -/
theorem C7_empty_visible_set (c : Controller) (h : c.visibleData_ = []) :
    (c.recalculate).startIndex_ = some 0 ∧
    (c.recalculate).endIndex_ = some 0 ∧
    (c.recalculate).verticalOffset_ = 0 := by
  simp [Controller.recalculate, h]

/-- C7 witness: the theorem applied to a concrete empty-visible-set state
with stale anchor, offset and available height. -/
theorem C7_empty_visible_set_witness :
    (emptyVisibleState.recalculate).startIndex_ = some 0 ∧
    (emptyVisibleState.recalculate).endIndex_ = some 0 ∧
    (emptyVisibleState.recalculate).verticalOffset_ = 0 :=
  C7_empty_visible_set emptyVisibleState (by decide)

/-- C8 (code evaluated at the failing input): with height cache
[10, 20, 30, 40, 50] and availableHeight 25, scrollTo(25) picks
startIndex = indexForHeight(25) = 2, whose preceding cumulative height is
20, but stores verticalOffset = itemIndex - previousHeight = 2 - 20 = -18
(Controller.js line 669 subtracts pixels from an index) instead of the
pixel residual 25 - 20 = 5, so the viewport top lands at pixel 2, not 25. -/
theorem C8_scrollTo_bug_eval :
    (scrollState.scrollTo 25).startIndex_ = some 2 ∧
    getIndexByHeight_ scrollState.heightCache_ (some 25) = 2 ∧
    (getHeightByIndexes_ scrollState.heightCache_ 0 (some (2 - 1))).getD 0 = 20 ∧
    (scrollState.scrollTo 25).verticalOffset_ = -18 ∧
    (25 - 20 : ℤ) = 5 := by
  decide

/-- C10: calling the startIndex or endIndex setter with NaN is a complete
no-op (the state is unchanged, so the opposite anchor is not cleared and
POSITION is not invalidated), and a setter call with a number always
leaves that index numeric — the unset state cannot be produced through
the public setters. -/
theorem C10_nan_setter_noop (c : Controller) (q : ℤ) :
    c.startIndex none = c ∧ c.endIndex none = c ∧
    ((c.startIndex (some q)).startIndex_).isSome = true ∧
    ((c.endIndex (some q)).endIndex_).isSome = true := by
  refine ⟨rfl, rfl, ?_, ?_⟩
  · by_cases h : c.startIndex_ = some q <;> simp [Controller.startIndex, h]
  · by_cases h : c.endIndex_ = some q <;> simp [Controller.endIndex, h]

/-- Negative indices read `undefined` from a JS array. -/
theorem jsGet_neg (l : List ℤ) (i : ℤ) (h : i < 0) : jsGet l i = none := by
  simp only [jsGet, if_neg (by omega : ¬ 0 ≤ i)]

/-- Normal form of the two-argument range-height query on a non-empty
cache: the conditional swap makes the end index the max and the start
index the min of the two upper-clamped inputs. -/
theorem getHeightByIndexes_minmax (cache : List ℤ) (a b : ℤ) (hn : cache.length ≠ 0) :
    getHeightByIndexes_ cache a (some b) =
      (jsGet cache
          (max (min a ((cache.length : ℤ) - 1)) (min b ((cache.length : ℤ) - 1)))).map
        (fun x => x -
          (jsGet cache
            (min (min a ((cache.length : ℤ) - 1)) (min b ((cache.length : ℤ) - 1)) - 1)).getD 0) := by
  simp only [getHeightByIndexes_, if_neg hn]
  by_cases hc : min b ((cache.length : ℤ) - 1) < min a ((cache.length : ℤ) - 1)
  · simp only [if_pos hc, max_eq_left hc.le, min_eq_right hc.le]
  · simp only [if_neg hc, max_eq_right (not_lt.1 hc), min_eq_left (not_lt.1 hc)]

/-- The full-range query `getHeightByIndexes_(0, length - 1)` used for the
total content height is always a defined number. -/
theorem total_some (cache : List ℤ) :
    getHeightByIndexes_ cache 0 (some ((cache.length : ℤ) - 1)) =
      some (totalContentHeight cache) := by
  have hs : (getHeightByIndexes_ cache 0 (some ((cache.length : ℤ) - 1))).isSome = true := by
    rcases eq_or_ne cache.length 0 with hn | hn
    · simp [getHeightByIndexes_, hn]
    · have h1 : 1 ≤ cache.length := Nat.one_le_iff_ne_zero.2 hn
      rw [getHeightByIndexes_minmax cache 0 _ hn]
      have hmax : max (min (0:ℤ) ((cache.length:ℤ)-1))
          (min ((cache.length:ℤ)-1) ((cache.length:ℤ)-1)) = (cache.length:ℤ)-1 := by omega
      rw [hmax, Option.isSome_map']
      unfold jsGet
      rw [if_pos (by omega : (0:ℤ) ≤ (cache.length:ℤ)-1)]
      rw [List.getElem?_eq_getElem (by omega : ((cache.length:ℤ)-1).toNat < cache.length)]
      rfl
  unfold totalContentHeight
  obtain ⟨t, ht⟩ := Option.isSome_iff_exists.1 hs
  rw [ht]
  rfl

/-- C3 amended: for every cache and all integer indices a, b with at least
one of them non-negative, the range-height query agrees with the query at
the indices clamped to [0, length-1] (indices are clamped from above by
the code; a negative start index behaves as 0 because the out-of-range
read falls back to 0); when both indices are negative the query returns
NaN instead (see the counterexample); on an empty cache it returns 0. -/
theorem C3_clamped_equivalence (cache : List ℤ) (a b : ℤ) (h : 0 ≤ max a b) :
    getHeightByIndexes_ cache a (some b) =
      getHeightByIndexes_ cache (clampIndexSpec cache a) (some (clampIndexSpec cache b)) ∧
    getHeightByIndexes_ [] a (some b) = some 0 := by
  refine ⟨?_, by simp [getHeightByIndexes_]⟩
  rcases eq_or_ne cache.length 0 with hn | hn
  · simp [getHeightByIndexes_, hn]
  · rw [getHeightByIndexes_minmax cache a b hn,
      getHeightByIndexes_minmax cache (clampIndexSpec cache a) (clampIndexSpec cache b) hn]
    unfold clampIndexSpec
    have h1 : 1 ≤ cache.length := Nat.one_le_iff_ne_zero.2 hn
    have hE : max (min (min (max a 0) ((cache.length:ℤ)-1)) ((cache.length:ℤ)-1))
        (min (min (max b 0) ((cache.length:ℤ)-1)) ((cache.length:ℤ)-1)) =
        max (min a ((cache.length:ℤ)-1)) (min b ((cache.length:ℤ)-1)) := by omega
    rw [hE]
    by_cases hS : 1 ≤ min (min a ((cache.length:ℤ)-1)) (min b ((cache.length:ℤ)-1))
    · have hSeq : min (min (max a 0) ((cache.length:ℤ)-1)) ((cache.length:ℤ)-1) ⊓
          min (min (max b 0) ((cache.length:ℤ)-1)) ((cache.length:ℤ)-1) =
          min (min a ((cache.length:ℤ)-1)) (min b ((cache.length:ℤ)-1)) := by omega
      rw [hSeq]
    · rw [jsGet_neg cache
          (min (min a ((cache.length:ℤ)-1)) (min b ((cache.length:ℤ)-1)) - 1) (by omega),
        jsGet_neg cache
          (min (min (min (max a 0) ((cache.length:ℤ)-1)) ((cache.length:ℤ)-1))
            (min (min (max b 0) ((cache.length:ℤ)-1)) ((cache.length:ℤ)-1)) - 1) (by omega)]

/-- C3 witness: the amended clamping equivalence applied to cache [10, 20]
with a = -5 (negative) and b = 7 (past the end). -/
theorem C3_clamped_equivalence_witness :
    (getHeightByIndexes_ [10, 20] (-5) (some 7) =
      getHeightByIndexes_ [10, 20] (clampIndexSpec [10, 20] (-5))
        (some (clampIndexSpec [10, 20] 7))) ∧
    getHeightByIndexes_ [] (-5) (some 7) = some 0 :=
  C3_clamped_equivalence [10, 20] (-5) 7 (by decide)

/-- C5: whenever the visible row sequence is non-empty and the available
height is at least the total content height, `recalculate` yields
startIndex = 0, endIndex = length - 1 and verticalOffset = 0, regardless
of any previously set anchor or offset, and a repeated call is
idempotent. -/
theorem C5_fits_regime (c : Controller) (h1 : c.visibleData_ ≠ [])
    (h2 : totalContentHeight c.heightCache_ ≤ c.availableHeight_) :
    (c.recalculate).startIndex_ = some 0 ∧
    (c.recalculate).endIndex_ = some ((c.visibleData_.length : ℤ) - 1) ∧
    (c.recalculate).verticalOffset_ = 0 ∧
    c.recalculate.recalculate = c.recalculate := by
  have hlen : c.visibleData_.length ≠ 0 := by
    simpa [List.length_eq_zero] using h1
  have hge : jsGe (some c.availableHeight_)
      (getHeightByIndexes_ c.heightCache_ 0 (some ((c.heightCache_.length : ℤ) - 1))) = true := by
    rw [total_some]
    simpa [jsGe] using h2
  cases c with
  | mk vd hc si ei vo ah dd dv dp pr =>
    simp_all [Controller.recalculate]

/-- C5 witness: the fits-regime theorem applied to a one-row state with a
stale anchor 7 and offset 5. -/
theorem C5_fits_regime_witness :
    (fitsState.recalculate).startIndex_ = some 0 ∧
    (fitsState.recalculate).endIndex_ = some ((fitsState.visibleData_.length : ℤ) - 1) ∧
    (fitsState.recalculate).verticalOffset_ = 0 ∧
    fitsState.recalculate.recalculate = fitsState.recalculate :=
  C5_fits_regime fitsState (by decide) (by decide)

/-- C9: after every call to `recalculate`, both indices are numeric
(neither holds the NaN sentinel), in every branch; since the guard of the
start-anchored branch is exactly `!isNaN(startIndex_)`, a subsequent
overflow-regime `recalculate` with no intervening setter always takes the
start-anchored branch. -/
theorem C9_indices_numeric_after_recalculate (c : Controller) :
    ((c.recalculate).startIndex_).isSome = true ∧
    ((c.recalculate).endIndex_).isSome = true := by
  rcases hs : c.startIndex_ with _ | si <;> rcases he : c.endIndex_ with _ | ei <;>
    simp only [Controller.recalculate, Controller.recalcFromStart, Controller.recalcFromEnd,
      hs, he] <;>
    (repeat' split) <;> simp_all

/-- The height cache and the visible row sequence are rebuilt in lockstep
and always have equal length. -/
theorem heightCacheAux_length (h : ℤ) (rows : List (Option ℤ)) :
    (heightCacheAux h rows).length = rows.length := by
  induction rows generalizing h with
  | nil => rfl
  | cons r rs ih => simp [heightCacheAux, ih]

/-- Each height-cache entry exceeds its predecessor (the accumulator seed
for index 0) by exactly the visited row's height plus the row spacing. -/
theorem heightCacheAux_diff (rows : List (Option ℤ)) (h0 : ℤ) (i : ℕ)
    (hi : i < rows.length) :
    (heightCacheAux h0 rows).getD i 0 -
      (if i = 0 then h0 else (heightCacheAux h0 rows).getD (i - 1) 0) =
    getItemHeight (rows.getD i none) + ROW_SPACE := by
  induction rows generalizing h0 i with
  | nil => simp at hi
  | cons r rs ih =>
    cases i with
    | zero => simp [heightCacheAux]
    | succ j =>
      cases j with
      | zero =>
        have h' := ih (h0 + (getItemHeight r + ROW_SPACE)) 0 (by simpa using hi)
        simpa [heightCacheAux] using h'
      | succ k =>
        have h' := ih (h0 + (getItemHeight r + ROW_SPACE)) (k + 1) (by simpa using hi)
        simpa [heightCacheAux] using h'

/-- When every visited row's height is non-negative, the running sums are
monotone from any seed. -/
theorem heightCacheAux_chain (rows : List (Option ℤ)) (h0 : ℤ)
    (hpos : ∀ r ∈ rows, 0 ≤ getItemHeight r) :
    List.Chain' (fun x y : ℤ => x ≤ y) (heightCacheAux h0 rows) := by
  induction rows generalizing h0 with
  | nil => simp [heightCacheAux]
  | cons r rs ih =>
    rw [heightCacheAux, List.chain'_cons']
    refine ⟨?_, ih _ (fun x hx => hpos x (List.mem_cons_of_mem r hx))⟩
    intro y hy
    cases rs with
    | nil => simp [heightCacheAux] at hy
    | cons r2 rs2 =>
      simp only [heightCacheAux, List.head?_cons, Option.mem_def, Option.some_inj] at hy
      have hr2 : 0 ≤ getItemHeight r2 := hpos r2 (by simp)
      have hrs : ROW_SPACE = 1 := rfl
      omega

/-- C6 counterexample: a visibility rebuild over a default-height row
followed by a row with numeric height override -30 produces the height
cache [21, -8], which is NOT non-decreasing — a negative numeric override
is used as-is, so the monotonicity consequence of the claim fails. -/
theorem C6_counterexample :
    (getVisibleData_ [none, some (-30)]).2 = [21, -8] ∧
    ¬ List.Chain' (fun x y : ℤ => x ≤ y) ((getVisibleData_ [none, some (-30)]).2) := by
  have hc : (getVisibleData_ [none, some (-30)]).2 = [21, -8] := by decide
  refine ⟨hc, ?_⟩
  rw [hc, List.chain'_pair]
  decide

/-- C6 amended: after every visibility rebuild the height cache and the
visible row sequence have equal length, and every difference
heightCache[i] - heightCache[i-1] (with heightCache[-1] taken as 0)
equals rowHeight(visibleRows[i]) + ROW_SPACE; the cache is non-decreasing
provided every visible row's effective height is non-negative (a numeric
override below -ROW_SPACE makes it decrease — see the counterexample). -/
theorem C6_height_cache_invariant (rows : List (Option ℤ)) :
    ((getVisibleData_ rows).2).length = rows.length ∧
    (∀ i : ℕ, i < rows.length →
      ((getVisibleData_ rows).2).getD i 0 -
        (if i = 0 then 0 else ((getVisibleData_ rows).2).getD (i - 1) 0) =
      getItemHeight (rows.getD i none) + ROW_SPACE) ∧
    ((∀ r ∈ rows, 0 ≤ getItemHeight r) →
      List.Chain' (fun x y : ℤ => x ≤ y) ((getVisibleData_ rows).2)) :=
  ⟨heightCacheAux_length 0 rows,
   fun i hi => heightCacheAux_diff rows 0 i hi,
   fun hpos => heightCacheAux_chain rows 0 hpos⟩

/-- C6 witness: the invariant applied to the two-row sequence with an
explicit override 10 and a default-height row, at index 1, with the
non-negativity side condition discharged concretely. -/
theorem C6_height_cache_invariant_witness :
    (((getVisibleData_ [some 10, none]).2).getD 1 0 -
        ((getVisibleData_ [some 10, none]).2).getD 0 0 =
      getItemHeight none + ROW_SPACE) ∧
    List.Chain' (fun x y : ℤ => x ≤ y) ((getVisibleData_ [some 10, none]).2) := by
  have h := C6_height_cache_invariant [some 10, none]
  exact ⟨by simpa using h.2.1 1 (by decide), h.2.2 (by decide)⟩
